import Mathlib

/-!
Verification development for the insurance-policy-optimizer repository.

The Python sources are shallowly embedded:
machine floats become exact rationals, pandas data frames become lists of
records, pandas boolean-mask filters become list filters, and Python
exceptions become values of an `Except` type.  Python `round` (banker
rounding, half to even) is modelled by `roundHalfEven` below.
-/

set_option maxRecDepth 8000

namespace InsuranceOptimizer

/-! ### Generic helpers modelling Python primitives -/

/-- Python `round` to an integer: round half to even (banker rounding). -/
def roundHalfEven (q : ℚ) : ℤ :=
  if Int.fract q < 1/2 then ⌊q⌋
  else if (1:ℚ)/2 < Int.fract q then ⌊q⌋ + 1
  else if ⌊q⌋ % 2 = 0 then ⌊q⌋ else ⌊q⌋ + 1

/-- Python `round(x, 2)`: round to two decimal places, half to even. -/
def round2 (q : ℚ) : ℚ := (roundHalfEven (q * 100) : ℚ) / 100

/-- Python `str.lower()` (the source only feeds it ASCII text). -/
def pyLower (s : String) : String := ⟨s.data.map Char.toLower⟩

/-- Python `str.strip()`: drop leading and trailing whitespace. -/
def pyStrip (s : String) : String :=
  ⟨((s.data.dropWhile Char.isWhitespace).reverse.dropWhile Char.isWhitespace).reverse⟩

/-- Helper for the substring test: does `pat` occur inside `s`? -/
def hasSubstrAux (pat : List Char) : List Char → Bool
  | [] => pat.isEmpty
  | c :: rest => pat.isPrefixOf (c :: rest) || hasSubstrAux pat rest

/-- Python `pat in s` on strings: substring containment. -/
def containsSub (s pat : String) : Bool := hasSubstrAux pat.data s.data

/-- A Python runtime value, as far as the embedded code needs it:
the argument-swapped call in `utils.py` line 74 ends up comparing a
string against a number, so the embedding must track both shapes. -/
inductive PyVal where
  | num (q : ℚ)
  | str (s : String)
deriving DecidableEq, Repr

/-- The message produced by a Python `TypeError` on an order comparison
between a string and a number (text abridged). -/
def pyTypeErrorMsg : String :=
  "TypeError: unsupported comparison between instances of str and int"

/-- Python `v < bound` where `bound` is a number: raises `TypeError`
when `v` is a string. -/
def pyValLtNum (v : PyVal) (bound : ℚ) : Except String Bool :=
  match v with
  | .num q => .ok (decide (q < bound))
  | .str _ => .error pyTypeErrorMsg

/-! ### Data model

A row of `cleaned_insurance_data.csv` as the code reads it: columns
`Age`, `Coverage_Lakhs`, `Premium_INR`, `Policy_Type`. -/

structure Policy where
  age : ℤ
  coverage_lakhs : ℚ
  premium_inr : ℚ
  policy_type : String
deriving DecidableEq, Repr, Inhabited

/-- A catalog row together with the two derived columns that
`get_policy_recommendations_enhanced` adds before sorting. -/
structure RankedPolicy where
  policy : Policy
  age_diff : ℤ
  affordability_score : ℚ
deriving DecidableEq, Repr, Inhabited

/-- The success payload of `get_policy_recommendations_enhanced`. -/
structure RecResult where
  best_policy : RankedPolicy
  top_policies : List RankedPolicy
  risk_score : ℚ
  total_available : ℕ
deriving DecidableEq, Repr, Inhabited

/-! ### utils.py -/

/-- `utils.validate_user_input` (utils.py lines 19-36). -/
def validate_user_input (age : ℤ) (income : ℚ) (health goal : String) : Bool × String :=
  if age < 18 ∨ 100 < age then (false, "Age must be between 18 and 100 years.")
  else if income ≤ 0 ∨ 1000 < income then (false, "Annual income must be between 1 and 1000 LPA.")
  else if ¬ (health = "Good" ∨ health = "Average" ∨ health = "Poor") then
    (false, "Please select a valid health status.")
  else if (pyStrip goal).data.isEmpty then (false, "Please provide your insurance goal.")
  else if (pyStrip goal).data.length < 5 then
    (false, "Please provide a more detailed insurance goal (at least 5 characters).")
  else (true, "Valid input")

/-- The age-bracket base of `utils.calculate_risk_score` (lines 42-50). -/
def ageBase (age : ℤ) : ℚ :=
  if age < 25 then 1 else if age < 35 then 3/2 else if age < 50 then 2 else 3

/-- The health-multiplier dictionary lookup with default 1.0 (line 53-54). -/
def healthMultiplier (health : String) : ℚ :=
  if health = "Good" then 1
  else if health = "Average" then 3/2
  else if health = "Poor" then 5/2
  else 1

/-- The income factor of `utils.calculate_risk_score` (lines 56-62),
written as a standalone factor for the monotonicity proofs. -/
def incomeMultiplier (income : ℚ) : ℚ :=
  if income < 5 then 13/10 else if income < 15 then 11/10 else 9/10

/-- `utils.calculate_risk_score` (utils.py lines 38-64), with the
arguments in declared order `(age, health, income)`. -/
def calculate_risk_score (age : ℤ) (health : String) (income : ℚ) : ℚ :=
  let risk1 := ageBase age
  let risk2 := risk1 * healthMultiplier health
  let risk3 :=
    if income < 5 then risk2 * (13/10)
    else if income < 15 then risk2 * (11/10)
    else risk2 * (9/10)
  round2 risk3

/-- The health-multiplier dictionary lookup applied to an arbitrary
runtime value: `dict.get` misses on every non-string key and on unknown
strings, returning the default 1.0. -/
def healthMultOf (v : PyVal) : ℚ :=
  match v with
  | .str s => healthMultiplier s
  | .num _ => 1

/-- The body of `utils.calculate_risk_score` run on arbitrary runtime
values, as Python does when callers disregard the annotations: the
`income < 5` comparison raises `TypeError` when `income` is a string. -/
def calculate_risk_score_dyn (age : ℤ) (health income : PyVal) : Except String ℚ :=
  let risk2 := ageBase age * healthMultOf health
  match pyValLtNum income 5 with
  | .error e => .error e
  | .ok true => .ok (round2 (risk2 * (13/10)))
  | .ok false =>
    match pyValLtNum income 15 with
    | .error e => .error e
    | .ok true => .ok (round2 (risk2 * (11/10)))
    | .ok false => .ok (round2 (risk2 * (9/10)))

/-- utils.py lines 77-85: the combined age-window and coverage-floor
mask, falling back to the coverage-floored full catalog when empty. -/
def ageCoverageFilter (df : List Policy) (age : ℤ) : List Policy :=
  let age_filtered := df.filter fun r =>
    decide (age - 10 ≤ r.age) && decide (r.age ≤ age + 10) && decide ((10:ℚ) ≤ r.coverage_lakhs)
  if age_filtered.isEmpty then df.filter (fun r => decide ((10:ℚ) ≤ r.coverage_lakhs))
  else age_filtered

/-- utils.py lines 87-90: when `health.lower() == 'poor'`, keep only the
`Health` and `Comprehensive` policy types; no fallback on empty. -/
def healthFilterStage (health : String) (cands : List Policy) : List Policy :=
  if pyLower health = "poor" then
    cands.filter fun r => (["Health", "Comprehensive"] : List String).contains r.policy_type
  else cands

/-- utils.py lines 92-101: the goal keyword rules, first match wins;
no fallback on empty. -/
def goalFilterStage (goal : String) (cands : List Policy) : List Policy :=
  let goal_lower := pyLower goal
  if containsSub goal_lower "family" || containsSub goal_lower "dependent" then
    cands.filter fun r => decide ((15:ℚ) ≤ r.coverage_lakhs)
  else if containsSub goal_lower "critical" || containsSub goal_lower "serious" then
    cands.filter fun r => (["Health", "Comprehensive"] : List String).contains r.policy_type
  else if containsSub goal_lower "save" || containsSub goal_lower "investment" then
    cands.filter fun r => (["Term Life", "Comprehensive"] : List String).contains r.policy_type
  else cands

/-- The three filter stages of utils.py lines 76-101 in order. -/
def filterPipeline (df : List Policy) (age : ℤ) (health goal : String) : List Policy :=
  goalFilterStage goal (healthFilterStage health (ageCoverageFilter df age))

/-- utils.py lines 107-108: the derived `age_diff` and
`affordability_score` columns. -/
def scoreRow (age : ℤ) (income : ℚ) (r : Policy) : RankedPolicy :=
  { policy := r
    age_diff := |r.age - age|
    affordability_score := r.premium_inr / (income * 1000) * 12 }

/-- The sort key of utils.py lines 111-112: ascending
`affordability_score`, then ascending `age_diff`, then descending
`Coverage_Lakhs`. -/
def rankKeyLe (a b : RankedPolicy) : Bool :=
  decide (a.affordability_score < b.affordability_score) ||
    (decide (a.affordability_score = b.affordability_score) &&
      (decide (a.age_diff < b.age_diff) ||
        (decide (a.age_diff = b.age_diff) &&
          decide (b.policy.coverage_lakhs ≤ a.policy.coverage_lakhs))))

/-- The same sort key as a proposition. -/
def rankedLe (a b : RankedPolicy) : Prop :=
  a.affordability_score < b.affordability_score ∨
    (a.affordability_score = b.affordability_score ∧
      (a.age_diff < b.age_diff ∨
        (a.age_diff = b.age_diff ∧ b.policy.coverage_lakhs ≤ a.policy.coverage_lakhs)))

/-- utils.py lines 106-112: add the derived columns and sort. -/
def rankCandidates (age : ℤ) (income : ℚ) (cands : List Policy) : List RankedPolicy :=
  (cands.map (scoreRow age income)).mergeSort rankKeyLe

/-- utils.py lines 114-115: `recommended.head(5)` and
`recommended.iloc[0]`. -/
def selectRecommendation (age : ℤ) (income : ℚ) (cands : List Policy) :
    RankedPolicy × List RankedPolicy :=
  let recommended := rankCandidates age income cands
  (recommended.headI, recommended.take 5)

/-- `utils.get_policy_recommendations_enhanced` (utils.py lines 66-122).
Line 74 calls `calculate_risk_score(age, income, health)` although the
declared parameter order is `(age, health, income)`, so the body runs
with the health string in the income position. -/
def get_policy_recommendations_enhanced (df : List Policy) (age : ℤ) (income : ℚ)
    (health goal : String) : Except String RecResult :=
  if df.isEmpty then .error "Unable to load insurance data"
  else
    match calculate_risk_score_dyn age (.num income) (.str health) with
    | .error e => .error e
    | .ok risk_score =>
      let cands := filterPipeline df age health goal
      if cands.isEmpty then
        .error "No suitable policies found for your profile. Please consult with an insurance advisor."
      else
        let sel := selectRecommendation age income cands
        .ok { best_policy := sel.1
              top_policies := sel.2
              risk_score := risk_score
              total_available := cands.length }

/-! ### agent.py -/

/-- The result dictionary of `agent.calculate_premium_estimate`. -/
structure PremiumEstimate where
  estimated_premium : ℤ
  base_rate : ℚ
  age_factor : ℚ
  health_factor : ℚ
deriving DecidableEq, Repr, Inhabited

/-- agent.py lines 163-170: `base_rates.get(policy_type, 0.8)`. -/
def base_rates (policy_type : String) : ℚ :=
  if policy_type = "Term Life" then 1/2
  else if policy_type = "Health" then 4/5
  else if policy_type = "Comprehensive" then 6/5
  else if policy_type = "Accident Cover" then 3/10
  else 4/5

/-- agent.py lines 172-182: the age multiplier. -/
def premiumAgeMultiplier (age : ℤ) : ℚ :=
  if age < 25 then 4/5
  else if age < 35 then 1
  else if age < 45 then 13/10
  else if age < 55 then 17/10
  else 5/2

/-- agent.py line 185: `health_multiplier.get(health, 1.0)`. -/
def premiumHealthMultiplier (health : String) : ℚ :=
  if health = "Good" then 1
  else if health = "Average" then 13/10
  else if health = "Poor" then 2
  else 1

/-- `agent.calculate_premium_estimate` (agent.py lines 160-200). -/
def calculate_premium_estimate (age : ℤ) (coverage_lakhs : ℚ) (policy_type health : String) :
    PremiumEstimate :=
  let estimated_premium :=
    coverage_lakhs * base_rates policy_type * premiumAgeMultiplier age *
      premiumHealthMultiplier health * 1000
  { estimated_premium := roundHalfEven estimated_premium
    base_rate := base_rates policy_type
    age_factor := premiumAgeMultiplier age
    health_factor := premiumHealthMultiplier health }

/-! ### app.py submit flow -/

/-- The outcome the app shows after the submit button (app.py lines
106-123): invalid input is reported without calling the recommendation
engine; otherwise the engine result or its error is shown.  The optional
text-generation enrichment added by `agent.get_policy_recommendation_with_ai`
passes the engine result and its error through unchanged and is out of
scope here (spec section 4.5). -/
inductive AppOutcome where
  | invalidInput (msg : String)
  | engineError (msg : String)
  | success (r : RecResult)
deriving DecidableEq, Repr

/-- The submit handler of app.py lines 106-123: validate first, and only
on valid input consult the catalog-backed recommendation engine. -/
def submitRecommendation (df : List Policy) (age : ℤ) (income : ℚ)
    (health goal : String) : AppOutcome :=
  let v := validate_user_input age income health goal
  if v.1 then
    match get_policy_recommendations_enhanced df age income health goal with
    | .error e => .engineError e
    | .ok r => .success r
  else .invalidInput v.2

/-! ### Definitions written from the specification text

These two definitions follow the wording of spec.md rather than the
source; each is compared against the corresponding source definition in
a refinement theorem. -/

/-- Spec section 4.3 steps 1-2 as written: first the age-window filter
with fallback to the unfiltered catalog, then the coverage floor with
relaxation to the coverage floor over the full catalog. -/
def specAgeWindowThenCoverage (df : List Policy) (age : ℤ) : List Policy :=
  let step1 := df.filter fun r => decide (|r.age - age| ≤ 10)
  let step1 := if step1.isEmpty then df else step1
  let step2 := step1.filter fun r => decide ((10:ℚ) ≤ r.coverage_lakhs)
  if step2.isEmpty then df.filter (fun r => decide ((10:ℚ) ≤ r.coverage_lakhs)) else step2

/-- Spec section 4.2 as written: base by age bracket, multiplied by the
health factor, multiplied by the income factor, rounded to two decimal
places. -/
def riskScoreSpec (age : ℤ) (health : String) (income : ℚ) : ℚ :=
  let base : ℚ := if age < 25 then 1 else if age < 35 then 3/2 else if age < 50 then 2 else 3
  let afterHealth := base *
    (if health = "Good" then 1
     else if health = "Average" then 3/2
     else if health = "Poor" then 5/2
     else 1)
  let afterIncome := afterHealth *
    (if income < 5 then 13/10 else if income < 15 then 11/10 else 9/10)
  round2 afterIncome

/-- Spec section 4.4 as written: `premium = round(coverage_lakhs *
base_rate * age_factor * health_factor * 1000)` with the listed factor
tables. -/
def premiumEstimateSpec (age : ℤ) (coverage_lakhs : ℚ) (policy_type health : String) :
    PremiumEstimate :=
  let base_rate : ℚ :=
    if policy_type = "Term Life" then 1/2
    else if policy_type = "Health" then 4/5
    else if policy_type = "Comprehensive" then 6/5
    else if policy_type = "Accident Cover" then 3/10
    else 4/5
  let age_factor : ℚ :=
    if age < 25 then 4/5
    else if age < 35 then 1
    else if age < 45 then 13/10
    else if age < 55 then 17/10
    else 5/2
  let health_factor : ℚ :=
    if health = "Good" then 1
    else if health = "Average" then 13/10
    else if health = "Poor" then 2
    else 1
  { estimated_premium := roundHalfEven (coverage_lakhs * base_rate * age_factor * health_factor * 1000)
    base_rate := base_rate
    age_factor := age_factor
    health_factor := health_factor }

/-! ### Concrete sample data for counterexamples and witnesses -/

/-- A catalog row: a Term Life policy targeted at age 30, 20 lakhs of
coverage, 5000 rupees annual premium. -/
def termLifeSample : Policy :=
  { age := 30, coverage_lakhs := 20, premium_inr := 5000, policy_type := "Term Life" }

/-- A second catalog row: a Health policy targeted at age 40, 15 lakhs
of coverage, 9000 rupees annual premium. -/
def healthSample : Policy :=
  { age := 40, coverage_lakhs := 15, premium_inr := 9000, policy_type := "Health" }

/-! ### Helper lemmas about rounding -/

theorem roundHalfEven_floor_le (q : ℚ) : ⌊q⌋ ≤ roundHalfEven q := by
  unfold roundHalfEven
  split_ifs <;> omega

theorem roundHalfEven_le_floor_add_one (q : ℚ) : roundHalfEven q ≤ ⌊q⌋ + 1 := by
  unfold roundHalfEven
  split_ifs <;> omega

theorem roundHalfEven_mono {x y : ℚ} (h : x ≤ y) : roundHalfEven x ≤ roundHalfEven y := by
  rcases lt_or_eq_of_le (Int.floor_le_floor h) with hf | hf
  · calc roundHalfEven x ≤ ⌊x⌋ + 1 := roundHalfEven_le_floor_add_one x
      _ ≤ ⌊y⌋ := by omega
      _ ≤ roundHalfEven y := roundHalfEven_floor_le y
  · have hfr : Int.fract x ≤ Int.fract y := by
      unfold Int.fract
      rw [hf]
      linarith
    unfold roundHalfEven
    rw [hf]
    split_ifs <;> first | omega | linarith

theorem round2_mono {x y : ℚ} (h : x ≤ y) : round2 x ≤ round2 y := by
  unfold round2
  have h1 : roundHalfEven (x * 100) ≤ roundHalfEven (y * 100) :=
    roundHalfEven_mono (by linarith)
  have h2 : ((roundHalfEven (x * 100) : ℤ) : ℚ) ≤ ((roundHalfEven (y * 100) : ℤ) : ℚ) := by
    exact_mod_cast h1
  linarith

/-! ### Helper lemmas about the risk-score factors -/

theorem calculate_risk_score_eq (age : ℤ) (health : String) (income : ℚ) :
    calculate_risk_score age health income =
      round2 (ageBase age * healthMultiplier health * incomeMultiplier income) := by
  simp only [calculate_risk_score, incomeMultiplier]
  split_ifs <;> rfl

theorem ageBase_mono {a1 a2 : ℤ} (h : a1 ≤ a2) : ageBase a1 ≤ ageBase a2 := by
  unfold ageBase
  split_ifs <;> first | (exfalso; omega) | norm_num

theorem ageBase_bounds (a : ℤ) : 1 ≤ ageBase a ∧ ageBase a ≤ 3 := by
  unfold ageBase
  split_ifs <;> norm_num

theorem healthMultiplier_pos (h : String) : 0 < healthMultiplier h := by
  unfold healthMultiplier
  split_ifs <;> norm_num

theorem incomeMultiplier_pos (i : ℚ) : 0 < incomeMultiplier i := by
  unfold incomeMultiplier
  split_ifs <;> norm_num

theorem incomeMultiplier_bounds (i : ℚ) : 9/10 ≤ incomeMultiplier i ∧ incomeMultiplier i ≤ 13/10 := by
  unfold incomeMultiplier
  split_ifs <;> norm_num

/-- C6: for every age, health string and income, the risk score computed
by the code equals the reference computation written in the spec: the
age-bracket base, times the health factor, times the income factor,
rounded to two decimal places. -/
theorem risk_score_matches_spec : ∀ (age : ℤ) (health : String) (income : ℚ),
    calculate_risk_score age health income = riskScoreSpec age health income := by
  intro a h i
  unfold calculate_risk_score riskScoreSpec ageBase healthMultiplier
  split_ifs <;> rfl

/-- C7: the premium estimate equals the formula written in the spec
(round(coverage * base_rate * age_factor * health_factor * 1000) with
the stated factor tables), and the two worked examples of the spec hold:
estimate(30, 10, Term Life, Good) gives premium 5000 with factors
(0.5, 1.0, 1.0), and estimate(60, 20, Health, Poor) gives premium 80000
with factors (0.8, 2.5, 2.0). -/
theorem premium_estimate_matches_spec :
    (∀ (age : ℤ) (coverage : ℚ) (ptype health : String),
      calculate_premium_estimate age coverage ptype health =
        premiumEstimateSpec age coverage ptype health) ∧
    calculate_premium_estimate 30 10 "Term Life" "Good" =
      { estimated_premium := 5000, base_rate := 1/2, age_factor := 1, health_factor := 1 } ∧
    calculate_premium_estimate 60 20 "Health" "Poor" =
      { estimated_premium := 80000, base_rate := 4/5, age_factor := 5/2, health_factor := 2 } := by
  refine ⟨fun a c p h => rfl, ?_, ?_⟩
  · have hb : base_rates "Term Life" = 1/2 := rfl
    have ha : premiumAgeMultiplier 30 = 1 := rfl
    have hh : premiumHealthMultiplier "Good" = 1 := rfl
    simp only [calculate_premium_estimate, hb, ha, hh, PremiumEstimate.mk.injEq]
    norm_num [roundHalfEven, Int.fract]
  · have hb : base_rates "Health" = 4/5 := rfl
    have ha : premiumAgeMultiplier 60 = 5/2 := rfl
    have hh : premiumHealthMultiplier "Poor" = 2 := rfl
    simp only [calculate_premium_estimate, hb, ha, hh, PremiumEstimate.mk.injEq]
    norm_num [roundHalfEven, Int.fract]

/-! ### C4: the two-step candidate procedure equals the combined filter -/

theorem filter_age_coverage_split (df : List Policy) (age : ℤ) :
    df.filter (fun r => decide (|r.age - age| ≤ 10) && decide ((10:ℚ) ≤ r.coverage_lakhs)) =
      (df.filter fun r => decide (|r.age - age| ≤ 10)).filter
        (fun r => decide ((10:ℚ) ≤ r.coverage_lakhs)) := by
  rw [List.filter_filter]
  apply List.filter_congr
  intro a _
  rw [Bool.and_comm]

theorem combined_filter_pred (df : List Policy) (age : ℤ) :
    df.filter (fun r =>
        decide (age - 10 ≤ r.age) && decide (r.age ≤ age + 10) &&
          decide ((10:ℚ) ≤ r.coverage_lakhs)) =
      df.filter (fun r => decide (|r.age - age| ≤ 10) && decide ((10:ℚ) ≤ r.coverage_lakhs)) := by
  apply List.filter_congr
  intro r _
  simp only [← Bool.decide_and]
  apply decide_eq_decide.mpr
  have habs : |r.age - age| ≤ 10 ↔ age - 10 ≤ r.age ∧ r.age ≤ age + 10 := by
    rw [abs_le]
    omega
  rw [habs]

/-- C4: for every catalog and age, the candidate set entering the
health-filter stage computed by the two-step procedure of the spec
(age window with fallback to the unfiltered catalog, then coverage floor
with relaxation to the coverage floor over the full catalog) equals the
set computed by the single combined filter of the code (age window and
coverage floor at once, falling back to the coverage-floored catalog
when empty). -/
theorem age_coverage_refinement : ∀ (df : List Policy) (age : ℤ),
    specAgeWindowThenCoverage df age = ageCoverageFilter df age := by
  intro df age
  simp only [specAgeWindowThenCoverage, ageCoverageFilter]
  rw [combined_filter_pred, filter_age_coverage_split]
  by_cases hA : (df.filter fun r => decide (|r.age - age| ≤ 10)) = []
  · simp only [hA, List.filter_nil, List.isEmpty_nil, if_true]
    split_ifs <;> rfl
  · rw [if_neg (fun hc => hA (List.isEmpty_iff.mp hc))]

/-! ### C1: the enhanced recommendation entry point -/

/-- C1 (code bug): on a non-empty catalog and a perfectly valid profile
the enhanced recommendation function does not return a shortlist or the
NoSuitablePolicy error at all: line 74 of utils.py passes the arguments
to `calculate_risk_score` in the order `(age, income, health)` although
the declared order is `(age, health, income)`, so the `income < 5`
comparison receives the health string and the call raises `TypeError`
before any filtering happens. -/
theorem recommend_raises_type_error :
    get_policy_recommendations_enhanced [termLifeSample] 30 10 "Good" "family protection" =
      .error pyTypeErrorMsg := rfl

/-! ### C2: the health filter stage -/

/-- C2 counterexample: with a Poor-health profile and a catalog whose
only age- and coverage-eligible row is a Term Life policy, the health
restriction empties the candidate set and the pipeline carries the empty
set forward instead of keeping the pre-restriction set. -/
theorem health_filter_drops_all :
    ageCoverageFilter [termLifeSample] 30 = [termLifeSample] ∧
    healthFilterStage "Poor" [termLifeSample] = [] ∧
    filterPipeline [termLifeSample] 30 "Poor" "retirement plan" = [] := by
  refine ⟨rfl, rfl, rfl⟩

/-- C2 amended: when the lower-cased health string is poor the stage
keeps exactly the rows whose policy type is Health or Comprehensive,
unconditionally and with no fallback when that empties the set; for any
other health value, in particular Good and Average, the stage leaves the
candidate set unchanged. -/
theorem health_filter_characterization :
    ∀ (health : String) (cands : List Policy),
      (pyLower health = "poor" →
        ∀ r : Policy, r ∈ healthFilterStage health cands ↔
          r ∈ cands ∧ (r.policy_type = "Health" ∨ r.policy_type = "Comprehensive")) ∧
      (pyLower health ≠ "poor" → healthFilterStage health cands = cands) ∧
      healthFilterStage "Good" cands = cands ∧
      healthFilterStage "Average" cands = cands := by
  intro health cands
  refine ⟨?_, ?_, ?_, ?_⟩
  · intro hp r
    simp only [healthFilterStage, if_pos hp, List.mem_filter, List.contains_eq_any_beq,
      List.any_cons, List.any_nil, Bool.or_eq_true, Bool.or_false, beq_iff_eq]
  · intro hp
    simp only [healthFilterStage, if_neg hp]
  · simp only [healthFilterStage, if_neg (show ¬pyLower "Good" = "poor" by decide)]
  · simp only [healthFilterStage, if_neg (show ¬pyLower "Average" = "poor" by decide)]

/-- C2 witness: the characterization applied to the Poor health value
and the one-row Term Life catalog. -/
theorem health_filter_characterization_witness :
    termLifeSample ∈ healthFilterStage "Poor" [termLifeSample] ↔
      termLifeSample ∈ [termLifeSample] ∧
        (termLifeSample.policy_type = "Health" ∨ termLifeSample.policy_type = "Comprehensive") :=
  (health_filter_characterization "Poor" [termLifeSample]).1 (by decide) termLifeSample

/-! ### C3: the goal keyword stage -/

/-- C3 counterexample: a goal mentioning critical illness restricts the
set to Health and Comprehensive types; on a candidate set holding only a
Term Life policy the restriction empties the set and the stage returns
the empty set rather than discarding the restriction. -/
theorem goal_filter_drops_all :
    goalFilterStage "critical illness cover" [termLifeSample] = [] ∧
    ([termLifeSample] : List Policy) ≠ [] := by
  refine ⟨rfl, by decide⟩

/-- C3 amended: the goal rules match case-insensitive substrings with
first-match-wins precedence (family/dependent, then critical/serious,
then save/investment, else nothing), and the chosen restriction is
applied unconditionally, with no fallback when it empties the set.  In
particular a goal containing family is handled by the coverage-floor
rule no matter which other keywords it also contains. -/
theorem goal_filter_characterization :
    ∀ (goal : String) (cands : List Policy),
      ((containsSub (pyLower goal) "family" = true ∨ containsSub (pyLower goal) "dependent" = true) →
        goalFilterStage goal cands = cands.filter fun r => decide ((15:ℚ) ≤ r.coverage_lakhs)) ∧
      (containsSub (pyLower goal) "family" = false → containsSub (pyLower goal) "dependent" = false →
        (containsSub (pyLower goal) "critical" = true ∨ containsSub (pyLower goal) "serious" = true) →
        goalFilterStage goal cands =
          cands.filter fun r => (["Health", "Comprehensive"] : List String).contains r.policy_type) ∧
      (containsSub (pyLower goal) "family" = false → containsSub (pyLower goal) "dependent" = false →
        containsSub (pyLower goal) "critical" = false → containsSub (pyLower goal) "serious" = false →
        (containsSub (pyLower goal) "save" = true ∨ containsSub (pyLower goal) "investment" = true) →
        goalFilterStage goal cands =
          cands.filter fun r => (["Term Life", "Comprehensive"] : List String).contains r.policy_type) ∧
      (containsSub (pyLower goal) "family" = false → containsSub (pyLower goal) "dependent" = false →
        containsSub (pyLower goal) "critical" = false → containsSub (pyLower goal) "serious" = false →
        containsSub (pyLower goal) "save" = false → containsSub (pyLower goal) "investment" = false →
        goalFilterStage goal cands = cands) := by
  intro goal cands
  refine ⟨?_, ?_, ?_, ?_⟩
  · rintro (h | h) <;> simp [goalFilterStage, h]
  · rintro h1 h2 (h | h) <;> simp [goalFilterStage, h1, h2, h]
  · rintro h1 h2 h3 h4 (h | h) <;> simp [goalFilterStage, h1, h2, h3, h4, h]
  · intro h1 h2 h3 h4 h5 h6
    simp [goalFilterStage, h1, h2, h3, h4, h5, h6]

/-- C3 witness: a goal containing both family and critical is handled by
the family rule alone (first match wins). -/
theorem goal_filter_characterization_witness :
    goalFilterStage "family and critical cover" [termLifeSample] =
      [termLifeSample].filter fun r => decide ((15:ℚ) ≤ r.coverage_lakhs) :=
  (goal_filter_characterization "family and critical cover" [termLifeSample]).1
    (Or.inl (by decide))

/-! ### C8: input validation happens before any catalog access -/

theorem validate_fst_false (age : ℤ) (income : ℚ) (health goal : String)
    (h : age < 18 ∨ 100 < age ∨ income ≤ 0 ∨ 1000 < income ∨
      (health ≠ "Good" ∧ health ≠ "Average" ∧ health ≠ "Poor") ∨
      (pyStrip goal).data.length < 5) :
    (validate_user_input age income health goal).1 = false := by
  unfold validate_user_input
  by_cases h1 : age < 18 ∨ 100 < age
  · rw [if_pos h1]
  rw [if_neg h1]
  by_cases h2 : income ≤ 0 ∨ 1000 < income
  · rw [if_pos h2]
  rw [if_neg h2]
  by_cases h3 : ¬ (health = "Good" ∨ health = "Average" ∨ health = "Poor")
  · rw [if_pos h3]
  rw [if_neg h3]
  by_cases h4 : (pyStrip goal).data.isEmpty = true
  · rw [if_pos h4]
  rw [if_neg h4]
  by_cases h5 : (pyStrip goal).data.length < 5
  · rw [if_pos h5]
  rw [if_neg h5]
  exfalso
  rcases h with hc | hc | hc | hc | hc | hc
  · exact h1 (Or.inl hc)
  · exact h1 (Or.inr hc)
  · exact h2 (Or.inl hc)
  · exact h2 (Or.inr hc)
  · rcases not_not.mp h3 with hg | hg | hg
    · exact hc.1 hg
    · exact hc.2.1 hg
    · exact hc.2.2 hg
  · exact h5 hc

/-- C8: any input that violates the profile bounds (age outside 18-100,
income not in (0, 1000], health outside the three known values, or a
goal shorter than five characters after trimming, which covers the empty
goal) is rejected by the submit flow as invalid input, and the outcome
is the same for every catalog: the recommendation engine, and with it
the catalog, is never consulted.  In particular age 15, income 0, health
Excellent and an empty goal are each rejected. -/
theorem invalid_input_rejected_before_catalog :
    ∀ (df df2 : List Policy) (age : ℤ) (income : ℚ) (health goal : String),
      (age < 18 ∨ 100 < age ∨ income ≤ 0 ∨ 1000 < income ∨
        (health ≠ "Good" ∧ health ≠ "Average" ∧ health ≠ "Poor") ∨
        (pyStrip goal).data.length < 5) →
      (∃ msg, submitRecommendation df age income health goal = .invalidInput msg) ∧
      submitRecommendation df age income health goal =
        submitRecommendation df2 age income health goal := by
  intro df df2 age income health goal h
  have hv := validate_fst_false age income health goal h
  refine ⟨⟨(validate_user_input age income health goal).2, ?_⟩, ?_⟩ <;>
    simp [submitRecommendation, hv]

/-- C8 witness: age 15 is rejected, with the same outcome on a one-row
catalog and on the empty catalog. -/
theorem invalid_input_rejected_witness :
    (∃ msg, submitRecommendation [termLifeSample] 15 10 "Good" "family protection" =
      .invalidInput msg) ∧
    submitRecommendation [termLifeSample] 15 10 "Good" "family protection" =
      submitRecommendation [] 15 10 "Good" "family protection" :=
  invalid_input_rejected_before_catalog [termLifeSample] [] 15 10 "Good" "family protection"
    (Or.inl (by decide))

/-! ### C9: monotonicity of the risk score -/

/-- C9: for fixed health and income the risk score is monotonically
non-decreasing in age (the age brackets carry increasing bases), and for
fixed age and income it is monotonically non-decreasing along the health
severity order Good, Average, Poor. -/
theorem risk_score_monotone :
    (∀ (health : String) (income : ℚ) (a1 a2 : ℤ), a1 ≤ a2 →
      calculate_risk_score a1 health income ≤ calculate_risk_score a2 health income) ∧
    (∀ (age : ℤ) (income : ℚ),
      calculate_risk_score age "Good" income ≤ calculate_risk_score age "Average" income ∧
      calculate_risk_score age "Average" income ≤ calculate_risk_score age "Poor" income) := by
  constructor
  · intro health income a1 a2 ha
    rw [calculate_risk_score_eq, calculate_risk_score_eq]
    apply round2_mono
    have hb := ageBase_mono ha
    have h1 := healthMultiplier_pos health
    have h2 := incomeMultiplier_pos income
    have hstep : ageBase a1 * healthMultiplier health ≤ ageBase a2 * healthMultiplier health :=
      mul_le_mul_of_nonneg_right hb (le_of_lt h1)
    exact mul_le_mul_of_nonneg_right hstep (le_of_lt h2)
  · intro age income
    have h1 := (ageBase_bounds age).1
    have h2 := incomeMultiplier_pos income
    have hg : healthMultiplier "Good" = 1 := rfl
    have hav : healthMultiplier "Average" = 3/2 := rfl
    have hp : healthMultiplier "Poor" = 5/2 := rfl
    constructor
    · rw [calculate_risk_score_eq, calculate_risk_score_eq]
      apply round2_mono
      rw [hg, hav]
      nlinarith
    · rw [calculate_risk_score_eq, calculate_risk_score_eq]
      apply round2_mono
      rw [hav, hp]
      nlinarith

/-- C9 witness: concrete instances of both monotonicity statements. -/
theorem risk_score_monotone_witness :
    calculate_risk_score 20 "Good" 10 ≤ calculate_risk_score 40 "Good" 10 :=
  risk_score_monotone.1 "Good" 10 20 40 (by decide)

/-! ### C10: range of the risk score on valid profiles -/

/-- C10: on every valid profile (age 18-100, health one of the three
known values, income in (0, 1000]) the risk score lies between 0.9 and
9.75 inclusive, and in particular never exceeds the 10-point scale the
app displays it against. -/
theorem risk_score_bounds :
    ∀ (age : ℤ) (health : String) (income : ℚ),
      18 ≤ age → age ≤ 100 →
      (health = "Good" ∨ health = "Average" ∨ health = "Poor") →
      0 < income → income ≤ 1000 →
      9/10 ≤ calculate_risk_score age health income ∧
      calculate_risk_score age health income ≤ 39/4 ∧
      calculate_risk_score age health income ≤ 10 := by
  intro age health income _ _ hh _ _
  rw [calculate_risk_score_eq]
  have hb1 := (ageBase_bounds age).1
  have hb2 := (ageBase_bounds age).2
  have hi1 := (incomeMultiplier_bounds income).1
  have hi2 := (incomeMultiplier_bounds income).2
  have hmv : healthMultiplier health = 1 ∨ healthMultiplier health = 3/2 ∨
      healthMultiplier health = 5/2 := by
    rcases hh with h | h | h <;> rw [h]
    · exact Or.inl rfl
    · exact Or.inr (Or.inl rfl)
    · exact Or.inr (Or.inr rfl)
  have hm1 : 1 ≤ healthMultiplier health := by
    rcases hmv with h | h | h <;> rw [h] <;> norm_num
  have hm2 : healthMultiplier health ≤ 5/2 := by
    rcases hmv with h | h | h <;> rw [h] <;> norm_num
  have s1 : (1:ℚ) ≤ ageBase age * healthMultiplier health := by nlinarith
  have s2 : ageBase age * healthMultiplier health ≤ 15/2 := by nlinarith
  have hp1 : 9/10 ≤ ageBase age * healthMultiplier health * incomeMultiplier income := by
    nlinarith
  have hp2 : ageBase age * healthMultiplier health * incomeMultiplier income ≤ 39/4 := by
    nlinarith
  have e1 : round2 (9/10) = 9/10 := by norm_num [round2, roundHalfEven, Int.fract]
  have e2 : round2 (39/4) = 39/4 := by norm_num [round2, roundHalfEven, Int.fract]
  have low : (9:ℚ)/10 ≤ round2 (ageBase age * healthMultiplier health * incomeMultiplier income) := by
    rw [← e1]; exact round2_mono hp1
  have high : round2 (ageBase age * healthMultiplier health * incomeMultiplier income) ≤ 39/4 := by
    rw [← e2]; exact round2_mono hp2
  exact ⟨low, high, by linarith⟩

/-- C10 witness: the bounds at a concrete valid profile. -/
theorem risk_score_bounds_witness :
    9/10 ≤ calculate_risk_score 30 "Good" 10 ∧
    calculate_risk_score 30 "Good" 10 ≤ 39/4 ∧
    calculate_risk_score 30 "Good" 10 ≤ 10 :=
  risk_score_bounds 30 "Good" 10 (by decide) (by decide) (Or.inl rfl)
    (by norm_num) (by norm_num)

/-! ### C5: the ranking and selection step -/

theorem rankKeyLe_iff (a b : RankedPolicy) : rankKeyLe a b = true ↔ rankedLe a b := by
  simp [rankKeyLe, rankedLe]

theorem rankedLe_trans {a b c : RankedPolicy} (hab : rankedLe a b) (hbc : rankedLe b c) :
    rankedLe a c := by
  rcases hab with h1 | ⟨e1, h1⟩
  · rcases hbc with h2 | ⟨e2, h2⟩
    · exact Or.inl (lt_trans h1 h2)
    · exact Or.inl (by rw [← e2]; exact h1)
  · rcases hbc with h2 | ⟨e2, h2⟩
    · exact Or.inl (by rw [e1]; exact h2)
    · refine Or.inr ⟨e1.trans e2, ?_⟩
      rcases h1 with g1 | ⟨f1, c1⟩
      · rcases h2 with g2 | ⟨f2, c2⟩
        · exact Or.inl (lt_trans g1 g2)
        · exact Or.inl (by rw [← f2]; exact g1)
      · rcases h2 with g2 | ⟨f2, c2⟩
        · exact Or.inl (by rw [f1]; exact g2)
        · exact Or.inr ⟨f1.trans f2, le_trans c2 c1⟩

theorem rankKeyLe_trans : ∀ (a b c : RankedPolicy),
    rankKeyLe a b → rankKeyLe b c → rankKeyLe a c := fun a b c hab hbc =>
  (rankKeyLe_iff a c).mpr
    (rankedLe_trans ((rankKeyLe_iff a b).mp hab) ((rankKeyLe_iff b c).mp hbc))

theorem rankKeyLe_total : ∀ (a b : RankedPolicy), rankKeyLe a b || rankKeyLe b a := by
  intro a b
  rw [Bool.or_eq_true, rankKeyLe_iff, rankKeyLe_iff]
  rcases lt_trichotomy a.affordability_score b.affordability_score with h | h | h
  · exact Or.inl (Or.inl h)
  · rcases lt_trichotomy a.age_diff b.age_diff with h2 | h2 | h2
    · exact Or.inl (Or.inr ⟨h, Or.inl h2⟩)
    · rcases le_total b.policy.coverage_lakhs a.policy.coverage_lakhs with h3 | h3
      · exact Or.inl (Or.inr ⟨h, Or.inr ⟨h2, h3⟩⟩)
      · exact Or.inr (Or.inr ⟨h.symm, Or.inr ⟨h2.symm, h3⟩⟩)
    · exact Or.inr (Or.inr ⟨h.symm, Or.inl h2⟩)
  · exact Or.inr (Or.inl h)

/-- C5: on every non-empty candidate set the ranking step produces a
permutation of the candidate rows with the two derived columns attached
by the stated formulas, pairwise ordered by ascending affordability
score, then ascending age difference, then descending coverage; the
selected best policy is the first row of that order and the shortlist
is its first five rows (fewer when the candidate set is smaller), with
the best policy equal to the head of the shortlist. -/
theorem ranking_sorts_and_selects (age : ℤ) (income : ℚ) (cands : List Policy)
    (h : cands ≠ []) :
    List.Perm (rankCandidates age income cands) (cands.map (scoreRow age income)) ∧
    (rankCandidates age income cands).Pairwise rankedLe ∧
    (∀ p ∈ rankCandidates age income cands,
      p.age_diff = |p.policy.age - age| ∧
      p.affordability_score = p.policy.premium_inr / (income * 1000) * 12) ∧
    (selectRecommendation age income cands).1 = (rankCandidates age income cands).headI ∧
    (selectRecommendation age income cands).2 = (rankCandidates age income cands).take 5 ∧
    (selectRecommendation age income cands).2.length ≤ 5 ∧
    (selectRecommendation age income cands).2 ≠ [] ∧
    (selectRecommendation age income cands).2.headI = (selectRecommendation age income cands).1 := by
  have hperm : List.Perm (rankCandidates age income cands) (cands.map (scoreRow age income)) :=
    List.mergeSort_perm _ _
  have hsorted : (rankCandidates age income cands).Pairwise rankedLe := by
    have hs := List.sorted_mergeSort rankKeyLe_trans rankKeyLe_total
      (cands.map (scoreRow age income))
    exact hs.imp (fun hab => (rankKeyLe_iff _ _).mp hab)
  have hfields : ∀ p ∈ rankCandidates age income cands,
      p.age_diff = |p.policy.age - age| ∧
      p.affordability_score = p.policy.premium_inr / (income * 1000) * 12 := by
    intro p hp
    have hmem : p ∈ cands.map (scoreRow age income) := List.mem_mergeSort.mp hp
    rcases List.mem_map.mp hmem with ⟨r, _, rfl⟩
    exact ⟨rfl, rfl⟩
  have hne : rankCandidates age income cands ≠ [] := by
    intro hnil
    have hlen := hperm.length_eq
    rw [hnil] at hlen
    exact h (List.map_eq_nil_iff.mp (List.eq_nil_of_length_eq_zero hlen.symm))
  obtain ⟨x, xs, hx⟩ := List.exists_cons_of_ne_nil hne
  refine ⟨hperm, hsorted, hfields, rfl, rfl, ?_, ?_, ?_⟩
  · show ((rankCandidates age income cands).take 5).length ≤ 5
    rw [List.length_take]
    exact min_le_left _ _
  · show (rankCandidates age income cands).take 5 ≠ []
    rw [hx]
    simp
  · show ((rankCandidates age income cands).take 5).headI =
      (rankCandidates age income cands).headI
    rw [hx]
    rfl

/-- C5 witness: the ranking statement at a concrete two-row candidate
set. -/
theorem ranking_sorts_and_selects_witness :
    List.Perm (rankCandidates 30 10 [termLifeSample, healthSample])
      ([termLifeSample, healthSample].map (scoreRow 30 10)) ∧
    (rankCandidates 30 10 [termLifeSample, healthSample]).Pairwise rankedLe ∧
    (∀ p ∈ rankCandidates 30 10 [termLifeSample, healthSample],
      p.age_diff = |p.policy.age - 30| ∧
      p.affordability_score = p.policy.premium_inr / (10 * 1000) * 12) ∧
    (selectRecommendation 30 10 [termLifeSample, healthSample]).1 =
      (rankCandidates 30 10 [termLifeSample, healthSample]).headI ∧
    (selectRecommendation 30 10 [termLifeSample, healthSample]).2 =
      (rankCandidates 30 10 [termLifeSample, healthSample]).take 5 ∧
    (selectRecommendation 30 10 [termLifeSample, healthSample]).2.length ≤ 5 ∧
    (selectRecommendation 30 10 [termLifeSample, healthSample]).2 ≠ [] ∧
    (selectRecommendation 30 10 [termLifeSample, healthSample]).2.headI =
      (selectRecommendation 30 10 [termLifeSample, healthSample]).1 :=
  ranking_sorts_and_selects 30 10 [termLifeSample, healthSample] (by decide)

end InsuranceOptimizer
